import Mathlib

/-!
Shallow embedding of the two backbone builders of this repository
(`torchocr/networks/backbones/RecMobileNetV3.py` and
`torchocr/networks/backbones/rec_resnet_vd.py`).

Tensors are modelled as rational-valued maps over 4-D indices
(batch, channel, height, width); the tensor execution substrate
(2-D convolution kernels, batch-normalization, pooling) is out of scope
for the repository itself and is therefore threaded through as an
abstract record of primitive operators (`Prim`).  Everything the
repository computes itself (configuration decisions, channel
arithmetic, activation closed forms, composition order, the weight
loader's key handling) is embedded concretely and executably.
-/

/-- Raw numeric tensor payload of a checkpoint entry (flat data). -/
abbrev TensorData := List ℚ

/-- 4-D feature tensor (batch, channel, height, width), rational valued. -/
abbrev Tensor := ℕ × ℕ × ℕ × ℕ → ℚ

/-- A Python stride argument: either a scalar int or a (vertical, horizontal) pair. -/
inductive PyStride where
  | int : ℤ → PyStride
  | pair : ℤ → ℤ → PyStride
deriving DecidableEq

/-- Activation tags accepted by the normalized-convolution unit. -/
inductive PyAct where
  | relu
  | hard_swish
deriving DecidableEq

/-- Python `int(q)`: truncation toward zero. -/
def pyInt (q : ℚ) : ℤ := Int.tdiv q.num (q.den : ℤ)

/-- `MobileNetV3.make_divisible` (RecMobileNetV3.py lines 226-232).
`//` is Python floor division, hence `Int.fdiv`. -/
def make_divisible (v : ℚ) (divisor : ℤ := 8) (min_value : Option ℤ := none) : ℤ :=
  let m := min_value.getD divisor
  let new_v := max m (Int.fdiv (pyInt (v + (divisor : ℚ) / 2)) divisor * divisor)
  if (new_v : ℚ) < 9/10 * v then new_v + divisor else new_v

/-- `torch.nn.functional.threshold(x, th, v)`: `x` where `x > th`, else `v`. -/
def pyThreshold (x th v : ℚ) : ℚ := if th < x then x else v

/-- `nn.ReLU` on a scalar. -/
def reluQ (x : ℚ) : ℚ := max x 0

/-- `F.relu6` on a scalar. -/
def relu6Q (x : ℚ) : ℚ := min (max x 0) 6

/-- `HSwish.forward` on a scalar: `x * relu6(x + 3) / 6`. -/
def hswishQ (x : ℚ) : ℚ := x * relu6Q (x + 3) / 6

/-- Elementwise ReLU on a tensor. -/
def reluT (t : Tensor) : Tensor := fun i => reluQ (t i)

/-- Elementwise hard-swish on a tensor. -/
def hswishT (t : Tensor) : Tensor := fun i => hswishQ (t i)

/-- `HardSigmoid` module (RecMobileNetV3.py lines 18-28): slope and offset,
with the source defaults 0.2 and 0.5. -/
structure HardSigmoid where
  slope : ℚ := 1/5
  offset : ℚ := 1/2
deriving DecidableEq

/-- `HardSigmoid.forward`: two chained one-sided threshold operations on the
negated value, exactly as the source writes them. -/
def HardSigmoid.forward (h : HardSigmoid) (x : ℚ) : ℚ :=
  let y := h.slope * x + h.offset
  let y2 := pyThreshold (-y) (-1) (-1)
  pyThreshold (-y2) 0 0

/-- Spec-side formulation of the hard-sigmoid (from the spec's words, for the
refinement claim): `clamp(slope*x + offset, 0, 1)`. -/
def hardSigmoidSpec (slope offset x : ℚ) : ℚ := min (max (slope * x + offset) 0) 1

/-- Elementwise hard-sigmoid on a tensor. -/
def hardSigmoidT (h : HardSigmoid) (t : Tensor) : Tensor := fun i => h.forward (t i)

/-- The tensor execution substrate: the primitive operator kernels the
repository delegates to the external framework.  Each field produces the
forward function of one primitive given its configuration and its learnable
payload; the repository treats these as black boxes. -/
structure Prim where
  conv2d : ℤ → ℤ → ℤ → PyStride → ℤ → ℤ → TensorData → Tensor → Tensor
  batchNorm2d : ℤ → TensorData → TensorData → TensorData → TensorData → Tensor → Tensor
  avgPool2d : PyStride → Tensor → Tensor
  adaptiveAvgPool2d : Tensor → Tensor
  conv2dBias : ℤ → ℤ → ℤ → TensorData → TensorData → Tensor → Tensor

/-- `ConvBNACT` (RecMobileNetV3.py lines 31-62): configuration recorded at
construction plus the unit's learnable parameters and running statistics.
Initial parameter payloads stand for the framework's default initialisation;
no claim depends on their values. -/
structure ConvBNACT where
  in_channels : ℤ
  out_channels : ℤ
  kernel_size : ℤ
  stride : PyStride
  padding : ℤ
  groups : ℤ
  act : Option PyAct
  conv_weight : TensorData := []
  bn_weight : TensorData := []
  bn_bias : TensorData := []
  bn_running_mean : TensorData := []
  bn_running_var : TensorData := []
deriving DecidableEq

/-- `ConvBNACT.__init__`. -/
def ConvBNACT.make (in_channels out_channels kernel_size : ℤ) (stride : PyStride)
    (padding groups : ℤ) (act : Option PyAct) : ConvBNACT :=
  { in_channels := in_channels, out_channels := out_channels,
    kernel_size := kernel_size, stride := stride, padding := padding,
    groups := groups, act := act }

/-- The optional activation stage of a normalized-convolution unit. -/
def applyAct : Option PyAct → Tensor → Tensor
  | none, x => x
  | some .relu, x => reluT x
  | some .hard_swish, x => hswishT x

/-- `ConvBNACT.forward`: convolve, normalize, optionally activate. -/
def ConvBNACT.forward (p : Prim) (u : ConvBNACT) (x : Tensor) : Tensor :=
  applyAct u.act
    (p.batchNorm2d u.out_channels u.bn_weight u.bn_bias u.bn_running_mean u.bn_running_var
      (p.conv2d u.in_channels u.out_channels u.kernel_size u.stride u.padding u.groups
        u.conv_weight x))

/-- A foreign (paddle) checkpoint: flat mapping from string keys to tensors. -/
abbrev PState := List (String × TensorData)

/-- The five foreign keys one normalized-convolution unit requires, in the
order the source looks them up. -/
def requiredKeys (pfx : String) : List String :=
  [pfx ++ "_weights", pfx ++ "_bn_scale", pfx ++ "_bn_offset",
   pfx ++ "_bn_mean", pfx ++ "_bn_variance"]

/-- The first required key absent from the checkpoint map, if any. -/
def firstMissingKey (s : PState) (pfx : String) : Option String :=
  (requiredKeys pfx).find? fun k => (List.lookup k s).isNone

/-- `ConvBNACT.load_3rd_state_dict` (RecMobileNetV3.py lines 45-55).
A Python dict access `_state[key]` raises `KeyError(key)` when the key is
absent; each access is modelled by a lookup whose `none` case aborts with
that key, in the source's statement order.  `load_state_dict` (reached only
after all five lookups succeeded) installs the five tensors.  Unknown
toolkit tags are a no-op. -/
def ConvBNACT.load_3rd_state_dict (u : ConvBNACT) (name3 : String) (s : PState)
    (pfx : String) : Except String ConvBNACT :=
  if name3 = "paddle" then
    match List.lookup (pfx ++ "_weights") s with
    | none => .error (pfx ++ "_weights")
    | some w =>
      match List.lookup (pfx ++ "_bn_scale") s with
      | none => .error (pfx ++ "_bn_scale")
      | some sc =>
        match List.lookup (pfx ++ "_bn_offset") s with
        | none => .error (pfx ++ "_bn_offset")
        | some ofs =>
          match List.lookup (pfx ++ "_bn_mean") s with
          | none => .error (pfx ++ "_bn_mean")
          | some mean =>
            match List.lookup (pfx ++ "_bn_variance") s with
            | none => .error (pfx ++ "_bn_variance")
            | some vr =>
              .ok { u with conv_weight := w, bn_weight := sc, bn_bias := ofs,
                           bn_running_mean := mean, bn_running_var := vr }
  else .ok u

/-- Running the per-unit import as Python does: a raised error propagates and
leaves the unit object exactly as it was (second component: the raised key). -/
def ConvBNACT.importRun (u : ConvBNACT) (name3 : String) (s : PState)
    (pfx : String) : ConvBNACT × Option String :=
  match u.load_3rd_state_dict name3 s pfx with
  | .ok u2 => (u2, none)
  | .error k => (u, some k)

/-- `SEBlock` (RecMobileNetV3.py lines 105-132): squeeze-excite gate. -/
structure SEBlock where
  in_channels : ℤ
  out_channels : ℤ
  num_mid_filter : ℤ
  conv1_weight : TensorData := []
  conv1_bias : TensorData := []
  conv2_weight : TensorData := []
  conv2_bias : TensorData := []
  relu2 : HardSigmoid := {}
deriving DecidableEq

/-- `SEBlock.__init__` with the default reduction 4 (`//` floor division). -/
def SEBlock.make (in_channels out_channels : ℤ) : SEBlock :=
  { in_channels := in_channels, out_channels := out_channels,
    num_mid_filter := Int.fdiv out_channels 4 }

/-- `SEBlock.forward`: pool, reduce, relu, expand, hard-sigmoid, multiply. -/
def SEBlock.forward (p : Prim) (s : SEBlock) (x : Tensor) : Tensor :=
  let attn := p.adaptiveAvgPool2d x
  let attn := p.conv2dBias s.in_channels s.num_mid_filter 1 s.conv1_weight s.conv1_bias attn
  let attn := reluT attn
  let attn := p.conv2dBias s.num_mid_filter s.out_channels 1 s.conv2_weight s.conv2_bias attn
  let attn := hardSigmoidT s.relu2 attn
  fun i => x i * attn i

/-- `ResidualUnit` (RecMobileNetV3.py lines 65-102). -/
structure ResidualUnit where
  conv0 : ConvBNACT
  conv1 : ConvBNACT
  se : Option SEBlock
  conv2 : ConvBNACT
  not_add : Bool
deriving DecidableEq

/-- `ResidualUnit.__init__`: 1x1 expand, depthwise k x k at the given stride
(groups = num_mid_filter), optional squeeze-excite gate, 1x1 project; the
residual add is suppressed exactly when
`num_in_filter != num_out_filter or stride != 1`. -/
def ResidualUnit.make (num_in_filter num_mid_filter num_out_filter : ℤ)
    (stride : PyStride) (kernel_size : ℤ) (act : Option PyAct) (use_se : Bool) :
    ResidualUnit :=
  { conv0 := ConvBNACT.make num_in_filter num_mid_filter 1 (.int 1) 0 1 act
    conv1 := ConvBNACT.make num_mid_filter num_mid_filter kernel_size stride
      (Int.fdiv (kernel_size - 1) 2) num_mid_filter act
    se := if use_se then some (SEBlock.make num_mid_filter num_mid_filter) else none
    conv2 := ConvBNACT.make num_mid_filter num_out_filter 1 (.int 1) 0 1 none
    not_add := decide (num_in_filter ≠ num_out_filter ∨ stride ≠ PyStride.int 1) }

/-- The optional squeeze-excite stage of a residual unit's forward pass. -/
def gateApply (p : Prim) : Option SEBlock → Tensor → Tensor
  | none, y => y
  | some s, y => SEBlock.forward p s y

/-- `ResidualUnit.forward`: expand, depthwise, optional gate, project, and
`y = x + y` when `not_add == False`. -/
def ResidualUnit.forward (p : Prim) (u : ResidualUnit) (x : Tensor) : Tensor :=
  let y := ConvBNACT.forward p u.conv0 x
  let y := ConvBNACT.forward p u.conv1 y
  let y := gateApply p u.se y
  let y := ConvBNACT.forward p u.conv2 y
  if u.not_add = false then x + y else y

/-- One row of a MobileNetV3 configuration table:
kernel, expanded channels, output channels, gate flag, activation, stride. -/
structure CfgRow where
  k : ℤ
  exp : ℤ
  c : ℤ
  se : Bool
  nl : PyAct
  s : PyStride
deriving DecidableEq

/-- The "large" configuration table (RecMobileNetV3.py lines 142-159). -/
def cfg_large : List CfgRow :=
  [⟨3, 16, 16, false, .relu, .int 1⟩,
   ⟨3, 64, 24, false, .relu, .pair 2 1⟩,
   ⟨3, 72, 24, false, .relu, .int 1⟩,
   ⟨5, 72, 40, true, .relu, .pair 2 1⟩,
   ⟨5, 120, 40, true, .relu, .int 1⟩,
   ⟨5, 120, 40, true, .relu, .int 1⟩,
   ⟨3, 240, 80, false, .hard_swish, .int 1⟩,
   ⟨3, 200, 80, false, .hard_swish, .int 1⟩,
   ⟨3, 184, 80, false, .hard_swish, .int 1⟩,
   ⟨3, 184, 80, false, .hard_swish, .int 1⟩,
   ⟨3, 480, 112, true, .hard_swish, .int 1⟩,
   ⟨3, 672, 112, true, .hard_swish, .int 1⟩,
   ⟨5, 672, 160, true, .hard_swish, .pair 2 1⟩,
   ⟨5, 960, 160, true, .hard_swish, .int 1⟩,
   ⟨5, 960, 160, true, .hard_swish, .int 1⟩]

/-- The "small" configuration table (RecMobileNetV3.py lines 163-176). -/
def cfg_small : List CfgRow :=
  [⟨3, 16, 16, true, .relu, .pair 2 1⟩,
   ⟨3, 72, 24, false, .relu, .pair 2 1⟩,
   ⟨3, 88, 24, false, .relu, .int 1⟩,
   ⟨5, 96, 40, true, .hard_swish, .pair 2 1⟩,
   ⟨5, 240, 40, true, .hard_swish, .int 1⟩,
   ⟨5, 240, 40, true, .hard_swish, .int 1⟩,
   ⟨5, 120, 48, true, .hard_swish, .int 1⟩,
   ⟨5, 144, 48, true, .hard_swish, .int 1⟩,
   ⟨5, 288, 96, true, .hard_swish, .pair 2 1⟩,
   ⟨5, 576, 96, true, .hard_swish, .int 1⟩,
   ⟨5, 576, 96, true, .hard_swish, .int 1⟩]

/-- The supported width multipliers (RecMobileNetV3.py line 183). -/
def supported_scale : List ℚ := [7/20, 1/2, 3/4, 1, 5/4]

/-- `MobileNetV3`: the mobile-inverted backbone's construction result. -/
structure MobileNetV3 where
  scale : ℚ
  conv1 : ConvBNACT
  block_list : List ResidualUnit
  conv2 : ConvBNACT
  out_channels : ℤ
deriving DecidableEq

/-- The per-row loop of `MobileNetV3.__init__` (lines 203-212): builds one
residual unit per configuration row, threading `inplanes`. -/
def buildBlockList (scale : ℚ) : List CfgRow → ℤ → List ResidualUnit × ℤ
  | [], inplanes => ([], inplanes)
  | row :: rest, inplanes =>
    let b := ResidualUnit.make inplanes (make_divisible (scale * (row.exp : ℚ)))
      (make_divisible (scale * (row.c : ℚ))) row.s row.k (some row.nl) row.se
    let (bs, fin) := buildBlockList scale rest (make_divisible (scale * (row.c : ℚ)))
    (b :: bs, fin)

/-- The tail of `MobileNetV3.__init__` shared by both tables: the scale
assertion (line 184, reached before any sub-unit is constructed), then the
stem convolution, the residual units, the head convolution, and
`out_channels` (lines 193-224).  The final 2x2 max-pool is a parameterless
framework primitive and carries no construction data. -/
def mobileBuild (in_channels : ℤ) (scale : ℚ) (cfg : List CfgRow)
    (cls_ch_squeeze : ℤ) : Except String MobileNetV3 :=
  if scale ∈ supported_scale then
    let inplanes := make_divisible (16 * scale)
    let conv1 := ConvBNACT.make in_channels inplanes 3 (.int 2) 1 1 (some .hard_swish)
    let (blocks, inplanes2) := buildBlockList scale cfg inplanes
    let conv2 := ConvBNACT.make inplanes2 (make_divisible (scale * (cls_ch_squeeze : ℚ)))
      1 (.int 1) 0 1 (some .hard_swish)
    .ok { scale := scale, conv1 := conv1, block_list := blocks, conv2 := conv2,
          out_channels := make_divisible (scale * (cls_ch_squeeze : ℚ)) }
  else
    .error "supported scale are [0.35, 0.5, 0.75, 1.0, 1.25] but input scale is not"

/-- `MobileNetV3.__init__` (lines 136-224): table selection first (an
unknown model name raises before anything is built), then the shared tail. -/
def MobileNetV3.make (in_channels : ℤ) (scale : ℚ) (model_name : String) :
    Except String MobileNetV3 :=
  if model_name = "large" then mobileBuild in_channels scale cfg_large 960
  else if model_name = "small" then mobileBuild in_channels scale cfg_small 576
  else .error ("mode[" ++ model_name ++ "_model] is not implemented!")

/-- `ConvBNACTNew` (rec_resnet_vd.py lines 12-32): the pool-then-stride
variant: average-pool by the stride factor, then a stride-1 convolution with
padding `(kernel_size - 1) // 2`, then normalization, then an optional ReLU
(any non-None activation argument becomes a ReLU). -/
structure ConvBNACTNew where
  in_channels : ℤ
  out_channels : ℤ
  kernel_size : ℤ
  stride : PyStride
  groups : ℤ
  act : Option PyAct
  conv_weight : TensorData := []
  bn_weight : TensorData := []
  bn_bias : TensorData := []
  bn_running_mean : TensorData := []
  bn_running_var : TensorData := []
deriving DecidableEq

/-- `ConvBNACTNew.__init__`. -/
def ConvBNACTNew.make (in_channels out_channels kernel_size : ℤ) (stride : PyStride)
    (groups : ℤ) (act : Option PyAct) : ConvBNACTNew :=
  { in_channels := in_channels, out_channels := out_channels,
    kernel_size := kernel_size, stride := stride, groups := groups, act := act }

/-- `ConvBNACTNew.forward`: pool, convolve (stride 1), normalize, ReLU if
an activation was configured. -/
def ConvBNACTNew.forward (p : Prim) (u : ConvBNACTNew) (x : Tensor) : Tensor :=
  let y := p.avgPool2d u.stride x
  let y := p.conv2d u.in_channels u.out_channels u.kernel_size (.int 1)
    (Int.fdiv (u.kernel_size - 1) 2) u.groups u.conv_weight y
  let y := p.batchNorm2d u.out_channels u.bn_weight u.bn_bias u.bn_running_mean
    u.bn_running_var y
  match u.act with
  | none => y
  | some _ => reluT y

/-- The conditional shortcut path's contents: a direct-stride unit, a
pool-then-stride unit, or no convolution at all (`self.conv = None`). -/
inductive ShortcutConv where
  | direct : ConvBNACT → ShortcutConv
  | pooled : ConvBNACTNew → ShortcutConv
  | noConv : ShortcutConv
deriving DecidableEq

/-- `ShurtCut` (rec_resnet_vd.py lines 35-51), source spelling kept. -/
structure ShurtCut where
  conv : ShortcutConv
deriving DecidableEq

/-- `ShurtCut.__init__`: the source tests `in_channels != out_channels or
stride[0] != 1` (only the vertical stride component). -/
def ShurtCut.make (in_channels out_channels : ℤ) (stride : ℤ × ℤ)
    (if_first : Bool) : ShurtCut :=
  if in_channels ≠ out_channels ∨ stride.1 ≠ 1 then
    if if_first then
      ⟨.direct (ConvBNACT.make in_channels out_channels 1 (.pair stride.1 stride.2)
        0 1 none)⟩
    else
      ⟨.pooled (ConvBNACTNew.make in_channels out_channels 1 (.pair stride.1 stride.2)
        1 none)⟩
  else if if_first then
    ⟨.direct (ConvBNACT.make in_channels out_channels 1 (.pair stride.1 stride.2)
      0 1 none)⟩
  else ⟨.noConv⟩

/-- `ShurtCut.forward`: apply the stored convolution when there is one. -/
def ShurtCut.forward (p : Prim) (s : ShurtCut) (x : Tensor) : Tensor :=
  match s.conv with
  | .direct u => ConvBNACT.forward p u x
  | .pooled u => ConvBNACTNew.forward p u x
  | .noConv => x

/-- Checks that a shortcut holds a direct-stride 1x1 non-activated projection
with the given channels and stride. -/
def ShortcutConv.checkDirect (ic oc : ℤ) (st : ℤ × ℤ) : ShortcutConv → Bool
  | .direct u => decide (u.in_channels = ic ∧ u.out_channels = oc ∧
      u.kernel_size = 1 ∧ u.stride = PyStride.pair st.1 st.2 ∧ u.padding = 0 ∧
      u.act = none)
  | _ => false

/-- Checks that a shortcut holds a pool-then-stride 1x1 non-activated
projection with the given channels and stride. -/
def ShortcutConv.checkPooled (ic oc : ℤ) (st : ℤ × ℤ) : ShortcutConv → Bool
  | .pooled u => decide (u.in_channels = ic ∧ u.out_channels = oc ∧
      u.kernel_size = 1 ∧ u.stride = PyStride.pair st.1 st.2 ∧ u.act = none)
  | _ => false

/-- `BasicBlock` (rec_resnet_vd.py lines 54-66). -/
structure BasicBlock where
  conv0 : ConvBNACT
  conv1 : ConvBNACT
  shortcut : ShurtCut
deriving DecidableEq

/-- `BasicBlock.__init__`. -/
def BasicBlock.make (in_channels out_channels : ℤ) (stride : ℤ × ℤ)
    (if_first : Bool) : BasicBlock :=
  { conv0 := ConvBNACT.make in_channels out_channels 3 (.pair stride.1 stride.2)
      1 1 (some .relu)
    conv1 := ConvBNACT.make out_channels out_channels 3 (.int 1) 1 1 none
    shortcut := ShurtCut.make in_channels out_channels stride if_first }

/-- `BasicBlock.forward`: `relu(conv1(conv0(x)) + shortcut(x))`. -/
def BasicBlock.forward (p : Prim) (b : BasicBlock) (x : Tensor) : Tensor :=
  reluT (ConvBNACT.forward p b.conv1 (ConvBNACT.forward p b.conv0 x) +
    ShurtCut.forward p b.shortcut x)

/-- `BottleneckBlock` (rec_resnet_vd.py lines 69-83). -/
structure BottleneckBlock where
  conv0 : ConvBNACT
  conv1 : ConvBNACT
  conv2 : ConvBNACT
  shortcut : ShurtCut
deriving DecidableEq

/-- `BottleneckBlock.__init__`: 1x1 relu, 3x3 relu at the block stride,
1x1 to `out_channels * 4` without activation (source padding 1), shortcut
to `out_channels * 4`. -/
def BottleneckBlock.make (in_channels out_channels : ℤ) (stride : ℤ × ℤ)
    (if_first : Bool) : BottleneckBlock :=
  { conv0 := ConvBNACT.make in_channels out_channels 1 (.int 1) 0 1 (some .relu)
    conv1 := ConvBNACT.make out_channels out_channels 3 (.pair stride.1 stride.2)
      1 1 (some .relu)
    conv2 := ConvBNACT.make out_channels (out_channels * 4) 1 (.int 1) 1 1 none
    shortcut := ShurtCut.make in_channels (out_channels * 4) stride if_first }

/-- The method the source actually defines, misspelled `forwart`
(rec_resnet_vd.py line 78): `relu(conv2(conv1(conv0(x))) + shortcut(x))`. -/
def BottleneckBlock.forwart (p : Prim) (b : BottleneckBlock) (x : Tensor) : Tensor :=
  reluT (ConvBNACT.forward p b.conv2
    (ConvBNACT.forward p b.conv1 (ConvBNACT.forward p b.conv0 x)) +
    ShurtCut.forward p b.shortcut x)

/-- The class defines no method named `forward`, so calling the block
dispatches to the framework base class fallback, which raises
NotImplementedError; that raise is modelled as the error value. -/
def BottleneckBlock.forward (_b : BottleneckBlock) (_x : Tensor) :
    Except String Tensor :=
  .error "NotImplementedError"

/-- A block of the virtual-depth backbone: one of the two variants. -/
inductive Block where
  | basic : BasicBlock → Block
  | bottleneck : BottleneckBlock → Block
deriving DecidableEq

/-- Which variant a depth selects. -/
inductive BlockKind where
  | basic
  | bottleneck
deriving DecidableEq

/-- `block_class(...)` dispatch in `ResNet.__init__` (line 125). -/
def buildBlock : BlockKind → ℤ → ℤ → ℤ × ℤ → Bool → Block
  | .basic, ic, oc, st, f => .basic (BasicBlock.make ic oc st f)
  | .bottleneck, ic, oc, st, f => .bottleneck (BottleneckBlock.make ic oc st f)

/-- The shortcut sub-block of a block. -/
def Block.shortcutOf : Block → ShurtCut
  | .basic b => b.shortcut
  | .bottleneck b => b.shortcut

/-- The output channel count of a bottleneck block's projection convolution. -/
def Block.bottleneckProjOut : Block → Option ℤ
  | .basic _ => none
  | .bottleneck b => some b.conv2.out_channels

/-- Inner loop of `ResNet.__init__` (lines 120-126): for each block index `i`
of stage `blockIdx`, stride is `(2, 1)` for the first block of a stage after
the first and `(1, 1)` otherwise; `if_first` holds only for the very first
block of the very first stage (`block == i == 0`); `in_ch` becomes the
stage's filter count after each block. -/
def buildBlocks (bk : BlockKind) (blockIdx : ℕ) (out_ch : ℤ) (in_ch : ℤ) :
    List ℕ → List Block × ℤ
  | [] => ([], in_ch)
  | i :: rest =>
    let stride : ℤ × ℤ := if i = 0 ∧ blockIdx ≠ 0 then (2, 1) else (1, 1)
    let b := buildBlock bk in_ch out_ch stride (decide (blockIdx = 0 ∧ i = 0))
    let (bs, fin) := buildBlocks bk blockIdx out_ch out_ch rest
    (b :: bs, fin)

/-- Outer loop of `ResNet.__init__` (lines 118-127) over the zipped
(stage depth, stage filter count) table, threading `in_ch`. -/
def buildStages (bk : BlockKind) (blockIdx : ℕ) (in_ch : ℤ) :
    List (ℕ × ℤ) → List (List Block) × ℤ
  | [] => ([], in_ch)
  | (d, nf) :: rest =>
    let (blocks, in2) := buildBlocks bk blockIdx nf in_ch (List.range d)
    let (stages, fin) := buildStages bk (blockIdx + 1) in2 rest
    (blocks :: stages, fin)

/-- The supported-depths table of `ResNet.__init__` (lines 90-97). -/
def supported_layers : List (ℕ × (List ℕ × BlockKind)) :=
  [(18, ([2, 2, 2, 2], .basic)),
   (34, ([3, 4, 6, 3], .basic)),
   (50, ([3, 4, 6, 3], .bottleneck)),
   (101, ([3, 4, 23, 3], .bottleneck)),
   (152, ([3, 8, 36, 3], .bottleneck)),
   (200, ([3, 12, 48, 3], .bottleneck))]

/-- `ResNet`: the virtual-depth backbone's construction result (the two
parameterless max-pools carry no construction data). -/
structure ResNet where
  conv1 : List ConvBNACT
  stages : List (List Block)
  out_channels : ℤ
deriving DecidableEq

/-- `ResNet.__init__` (lines 87-129): the `assert layers in supported_layers`
is the first statement after the table, so an unsupported depth fails before
any sub-unit is built; `is_3x3` is always True, so the stem is the
three-convolution 3x3 stack; `out_channels` is `in_ch` after the stage
loop. -/
def ResNet.make (in_channels : ℤ) (layers : ℕ) : Except String ResNet :=
  match List.lookup layers supported_layers with
  | none => .error "supported layers are [18, 34, 50, 101, 152, 200] but input layer is not"
  | some (depth, bk) =>
    let conv1 := [ConvBNACT.make in_channels 32 3 (.int 1) 1 1 (some .relu),
                  ConvBNACT.make 32 32 3 (.int 1) 1 1 (some .relu),
                  ConvBNACT.make 32 64 3 (.int 1) 1 1 (some .relu)]
    let num_filters : List ℤ := [64, 128, 256, 512]
    let (stages, in_ch) := buildStages bk 0 64 (depth.zip num_filters)
    .ok { conv1 := conv1, stages := stages, out_channels := in_ch }

/-- The architecturally first block (first block of the first stage). -/
def ResNet.firstBlock : ResNet → Option Block
  | r =>
    match r.stages with
    | (b :: _) :: _ => some b
    | _ => none

/-- Whether an `Except` result is the raised-error outcome. -/
def exceptIsError : Except String α → Bool
  | .error _ => true
  | .ok _ => false

/-- A trivial instantiation of the primitive-operator record, used only to
evaluate structural theorems at a concrete point. -/
def trivPrim : Prim :=
  { conv2d := fun _ _ _ _ _ _ _ x => x
    batchNorm2d := fun _ _ _ _ _ x => x
    avgPool2d := fun _ x => x
    adaptiveAvgPool2d := fun x => x
    conv2dBias := fun _ _ _ _ _ x => x }

/-- The zero tensor, as a concrete evaluation point. -/
def tensor0 : Tensor := fun _ => 0

/-- C2: with divisor 8 and minimum 8, `make_divisible` takes the maximum of
the minimum and the rounded-to-nearest-multiple value and adds one divisor
step exactly when that candidate undershoots `0.9 * v`; in particular
`make_divisible 16 = 16`, `17 ↦ 16`, `5 ↦ 8`, `4.1 ↦ 8`, `8.9 ↦ 16`. -/
theorem make_divisible_spec :
    (∀ v : ℚ,
      make_divisible v =
        if ((max (8:ℤ) (Int.fdiv (pyInt (v + (8:ℚ) / 2)) 8 * 8) : ℤ) : ℚ) < 9/10 * v
        then max (8:ℤ) (Int.fdiv (pyInt (v + (8:ℚ) / 2)) 8 * 8) + 8
        else max (8:ℤ) (Int.fdiv (pyInt (v + (8:ℚ) / 2)) 8 * 8)) ∧
    make_divisible 16 = 16 ∧ make_divisible 17 = 16 ∧ make_divisible 5 = 8 ∧
    make_divisible (41/10) = 8 ∧ make_divisible (89/10) = 16 := by
  refine ⟨fun v => ?_, by with_unfolding_all decide, by with_unfolding_all decide,
    by with_unfolding_all decide, by with_unfolding_all decide,
    by with_unfolding_all decide⟩
  rfl

/-- C6: the hard-sigmoid forward pass, written as two chained one-sided
threshold operations on the negated value, returns exactly
`clamp(slope*x + offset, 0, 1)` for every slope, offset and input; the
source defaults are slope 0.2 and offset 0.5. -/
theorem hardSigmoid_eq_clamp :
    (∀ slope offset x : ℚ,
      HardSigmoid.forward ⟨slope, offset⟩ x = hardSigmoidSpec slope offset x) ∧
    ({} : HardSigmoid).slope = 1/5 ∧ ({} : HardSigmoid).offset = 1/2 := by
  refine ⟨fun slope offset x => ?_, rfl, rfl⟩
  show pyThreshold (-(pyThreshold (-(slope * x + offset)) (-1) (-1))) 0 0 = _
  set y := slope * x + offset with hy
  unfold pyThreshold hardSigmoidSpec
  rw [← hy]
  by_cases h1 : (-1 : ℚ) < -y
  · rw [if_pos h1, neg_neg]
    by_cases h2 : (0 : ℚ) < y
    · rw [if_pos h2, max_eq_left h2.le, min_eq_left (by linarith)]
    · rw [if_neg h2, max_eq_right (le_of_not_lt h2), min_eq_left (by norm_num)]
  · rw [if_neg h1]
    have hyge : (1 : ℚ) ≤ y := by
      by_contra hcon
      exact h1 (by push_neg at hcon; exact neg_lt_neg hcon)
    rw [max_eq_left (by linarith), min_eq_right hyge]
    norm_num

/-- C1: a bottleneck block's constructed sub-units are a 1x1 relu unit, a
3x3 relu unit at the block stride, a 1x1 non-activated unit expanding
channels by 4, and the conditional shortcut; but the class misspells its
forward method as `forwart`, so the block's actual forward pass raises
NotImplementedError, while the misspelled method computes
`relu(conv2(conv1(conv0(x))) + shortcut(x))`. -/
theorem bottleneck_forward_unimplemented :
    ∀ (p : Prim) (ic oc : ℤ) (st : ℤ × ℤ) (f : Bool) (x : Tensor),
      BottleneckBlock.forward (BottleneckBlock.make ic oc st f) x =
        Except.error "NotImplementedError" ∧
      BottleneckBlock.forwart p (BottleneckBlock.make ic oc st f) x =
        reluT (ConvBNACT.forward p (BottleneckBlock.make ic oc st f).conv2
          (ConvBNACT.forward p (BottleneckBlock.make ic oc st f).conv1
            (ConvBNACT.forward p (BottleneckBlock.make ic oc st f).conv0 x)) +
          ShurtCut.forward p (BottleneckBlock.make ic oc st f).shortcut x) ∧
      (BottleneckBlock.make ic oc st f).conv0.kernel_size = 1 ∧
      (BottleneckBlock.make ic oc st f).conv0.act = some PyAct.relu ∧
      (BottleneckBlock.make ic oc st f).conv1.kernel_size = 3 ∧
      (BottleneckBlock.make ic oc st f).conv1.stride = PyStride.pair st.1 st.2 ∧
      (BottleneckBlock.make ic oc st f).conv1.act = some PyAct.relu ∧
      (BottleneckBlock.make ic oc st f).conv2.kernel_size = 1 ∧
      (BottleneckBlock.make ic oc st f).conv2.act = none ∧
      (BottleneckBlock.make ic oc st f).conv2.out_channels = oc * 4 ∧
      (BottleneckBlock.make ic oc st f).shortcut = ShurtCut.make ic (oc * 4) st f :=
  fun _ _ _ _ _ _ => ⟨rfl, rfl, rfl, rfl, rfl, rfl, rfl, rfl, rfl, rfl, rfl⟩

/-- C3: per-unit paddle import with any of the five required keys absent
aborts with the (first) offending key and leaves every parameter and running
statistic of the unit at its pre-import value. -/
theorem conv_load_missing_key (u : ConvBNACT) (s : PState) (pfx : String)
    (h : ((requiredKeys pfx).any fun k => (List.lookup k s).isNone) = true) :
    ConvBNACT.importRun u "paddle" s pfx = (u, firstMissingKey s pfx) ∧
    (firstMissingKey s pfx).isSome = true := by
  simp only [ConvBNACT.importRun, ConvBNACT.load_3rd_state_dict, if_pos rfl,
    firstMissingKey, requiredKeys]
  simp only [requiredKeys, List.any_cons, List.any_nil, Bool.or_eq_true,
    Option.isNone_iff_eq_none, Bool.or_false] at h
  cases h1 : List.lookup (pfx ++ "_weights") s with
  | none => simp [List.find?, h1]
  | some w =>
    cases h2 : List.lookup (pfx ++ "_bn_scale") s with
    | none => simp [List.find?, h1, h2]
    | some sc =>
      cases h3 : List.lookup (pfx ++ "_bn_offset") s with
      | none => simp [List.find?, h1, h2, h3]
      | some ofs =>
        cases h4 : List.lookup (pfx ++ "_bn_mean") s with
        | none => simp [List.find?, h1, h2, h3, h4]
        | some mean =>
          cases h5 : List.lookup (pfx ++ "_bn_variance") s with
          | none => simp [List.find?, h1, h2, h3, h4, h5]
          | some vr => simp [h1, h2, h3, h4, h5] at h

/-- Witness for C3 at a concrete unit, empty checkpoint map and concrete
name stem. -/
theorem conv_load_missing_key_witness :
    ConvBNACT.importRun (ConvBNACT.make 3 8 1 (.int 1) 0 1 none) "paddle" [] "c" =
      (ConvBNACT.make 3 8 1 (.int 1) 0 1 none, firstMissingKey [] "c") ∧
    (firstMissingKey [] "c").isSome = true :=
  conv_load_missing_key (ConvBNACT.make 3 8 1 (.int 1) 0 1 none) [] "c" (by decide)

/-- C4: a mobile-inverted residual unit adds the identity to the projected
chain exactly when `num_in == num_out` and `stride == 1`; otherwise the
projected output is returned unmodified; the gate stage is the identity
when the gate flag is off. -/
theorem residual_unit_forward_spec :
    ∀ (p : Prim) (ni nm no : ℤ) (stride : PyStride) (k : ℤ) (act : Option PyAct)
      (use_se : Bool) (x : Tensor),
      (use_se = false → (ResidualUnit.make ni nm no stride k act use_se).se = none) ∧
      (ni = no ∧ stride = PyStride.int 1 →
        ∀ i, ResidualUnit.forward p (ResidualUnit.make ni nm no stride k act use_se) x i =
          ConvBNACT.forward p (ResidualUnit.make ni nm no stride k act use_se).conv2
            (gateApply p (ResidualUnit.make ni nm no stride k act use_se).se
              (ConvBNACT.forward p (ResidualUnit.make ni nm no stride k act use_se).conv1
                (ConvBNACT.forward p (ResidualUnit.make ni nm no stride k act use_se).conv0
                  x))) i + x i) ∧
      (ni ≠ no ∨ stride ≠ PyStride.int 1 →
        ResidualUnit.forward p (ResidualUnit.make ni nm no stride k act use_se) x =
          ConvBNACT.forward p (ResidualUnit.make ni nm no stride k act use_se).conv2
            (gateApply p (ResidualUnit.make ni nm no stride k act use_se).se
              (ConvBNACT.forward p (ResidualUnit.make ni nm no stride k act use_se).conv1
                (ConvBNACT.forward p (ResidualUnit.make ni nm no stride k act use_se).conv0
                  x)))) := by
  intro p ni nm no stride k act use_se x
  refine ⟨fun h => by simp [ResidualUnit.make, h], ?_, ?_⟩
  · rintro ⟨rfl, rfl⟩ i
    have hna : (ResidualUnit.make ni nm ni (PyStride.int 1) k act use_se).not_add = false := by
      simp [ResidualUnit.make]
    simp only [ResidualUnit.forward, hna]
    rw [if_pos trivial]
    exact add_comm (x i) _
  · intro h
    have hna : (ResidualUnit.make ni nm no stride k act use_se).not_add = true := by
      rcases h with h | h <;> simp [ResidualUnit.make, h]
    simp [ResidualUnit.forward, hna]

/-- Witness for C4 at a concrete unit with matching channels, scalar
stride 1, no gate, the zero tensor, at index (0, 0, 0, 0). -/
theorem residual_unit_forward_spec_witness :
    ResidualUnit.forward trivPrim (ResidualUnit.make 8 16 8 (.int 1) 3 none false)
      tensor0 (0, 0, 0, 0) =
      ConvBNACT.forward trivPrim (ResidualUnit.make 8 16 8 (.int 1) 3 none false).conv2
        (gateApply trivPrim (ResidualUnit.make 8 16 8 (.int 1) 3 none false).se
          (ConvBNACT.forward trivPrim
            (ResidualUnit.make 8 16 8 (.int 1) 3 none false).conv1
            (ConvBNACT.forward trivPrim
              (ResidualUnit.make 8 16 8 (.int 1) 3 none false).conv0 tensor0)))
        (0, 0, 0, 0) + tensor0 (0, 0, 0, 0) :=
  (residual_unit_forward_spec trivPrim 8 16 8 (.int 1) 3 none false tensor0).2.1
    ⟨rfl, rfl⟩ (0, 0, 0, 0)

/-- C5: for the strides the virtual-depth backbone constructs (horizontal
component 1), a shortcut sub-block projects with a 1x1 non-activated unit
when channels or stride mismatch, built direct-stride exactly for the
architecturally first block and pool-then-stride otherwise; with matching
shapes and a non-first block it is the identity with no convolution. -/
theorem shurtcut_construction_spec :
    ∀ (ic oc : ℤ) (st : ℤ × ℤ) (f : Bool),
      st.2 = 1 →
      ((ic ≠ oc ∨ st ≠ (1, 1)) → f = true →
        ShortcutConv.checkDirect ic oc st (ShurtCut.make ic oc st f).conv = true) ∧
      ((ic ≠ oc ∨ st ≠ (1, 1)) → f = false →
        ShortcutConv.checkPooled ic oc st (ShurtCut.make ic oc st f).conv = true) ∧
      (ic = oc → st = (1, 1) → f = false →
        (ShurtCut.make ic oc st f).conv = ShortcutConv.noConv ∧
        ∀ (p : Prim) (x : Tensor),
          ShurtCut.forward p (ShurtCut.make ic oc st f) x = x) := by
  rintro ic oc ⟨s1, s2⟩ f hs
  obtain rfl : s2 = 1 := hs
  have hcond : ∀ h : ic ≠ oc ∨ (s1, (1:ℤ)) ≠ ((1:ℤ), (1:ℤ)), ic ≠ oc ∨ s1 ≠ 1 := by
    rintro (h | h)
    · exact Or.inl h
    · refine Or.inr fun h1 => h ?_
      rw [h1]
  refine ⟨?_, ?_, ?_⟩
  · intro h hf
    subst hf
    have hc := hcond h
    simp only [ShurtCut.make]
    rw [if_pos hc]
    simp [ShortcutConv.checkDirect, ConvBNACT.make]
  · intro h hf
    subst hf
    have hc := hcond h
    simp only [ShurtCut.make]
    rw [if_pos hc]
    simp [ShortcutConv.checkPooled, ConvBNACTNew.make]
  · intro hic hst hf
    subst hic
    subst hf
    have h1 : s1 = 1 := by
      have := congrArg Prod.fst hst
      simpa using this
    subst h1
    have hmk : ShurtCut.make ic ic ((1:ℤ), (1:ℤ)) false = ⟨ShortcutConv.noConv⟩ := by
      simp [ShurtCut.make]
    rw [hmk]
    exact ⟨rfl, fun p x => rfl⟩

/-- Witness for C5 at a concrete non-first block with a channel-doubling
stride-(2,1) shortcut. -/
theorem shurtcut_construction_spec_witness :
    ShortcutConv.checkPooled 64 128 (2, 1) (ShurtCut.make 64 128 (2, 1) false).conv =
      true :=
  (shurtcut_construction_spec 64 128 (2, 1) false rfl).2.1 (Or.inl (by decide)) rfl

/-- C9: a shortcut constructed with `if_first` true always holds a direct
1x1 non-activated projection, never the identity, even with matching
channels and stride (1, 1); in particular the first block of the first stage
at depths 18 and 34 (64 to 64 channels, stride (1, 1)) carries such a
convolution-plus-normalization shortcut. -/
theorem shurtcut_first_block_never_identity :
    (∀ (ic oc : ℤ) (st : ℤ × ℤ),
      ShortcutConv.checkDirect ic oc st (ShurtCut.make ic oc st true).conv = true ∧
      (ShurtCut.make ic oc st true).conv ≠ ShortcutConv.noConv ∧
      ∀ (p : Prim) (x : Tensor),
        ShurtCut.forward p (ShurtCut.make ic oc st true) x =
          ConvBNACT.forward p
            (ConvBNACT.make ic oc 1 (PyStride.pair st.1 st.2) 0 1 none) x) ∧
    (∀ c : ℤ,
      Except.map (fun r => Option.map Block.shortcutOf (ResNet.firstBlock r))
        (ResNet.make c 18) = Except.ok (some (ShurtCut.make 64 64 (1, 1) true)) ∧
      Except.map (fun r => Option.map Block.shortcutOf (ResNet.firstBlock r))
        (ResNet.make c 34) = Except.ok (some (ShurtCut.make 64 64 (1, 1) true))) := by
  constructor
  · intro ic oc st
    have hmk : ShurtCut.make ic oc st true =
        ⟨ShortcutConv.direct (ConvBNACT.make ic oc 1 (PyStride.pair st.1 st.2) 0 1 none)⟩ := by
      by_cases hc : ic ≠ oc ∨ st.1 ≠ 1
      · simp only [ShurtCut.make]
        rw [if_pos hc]
        simp
      · simp only [ShurtCut.make]
        rw [if_neg hc]
        simp
    rw [hmk]
    refine ⟨by simp [ShortcutConv.checkDirect, ConvBNACT.make], by simp, fun p x => rfl⟩
  · intro c
    exact ⟨rfl, rfl⟩

/-- C10: for every supported depth the constructed virtual-depth backbone
reports `out_channels = 512` (the last filter-table entry), even at the
bottleneck depths whose blocks project to four times the stage filter count,
so the final stage's bottleneck projections emit 2048 channels. -/
theorem resnet_out_channels_512 :
    ∀ c : ℤ,
      Except.map ResNet.out_channels (ResNet.make c 18) = Except.ok 512 ∧
      Except.map ResNet.out_channels (ResNet.make c 34) = Except.ok 512 ∧
      Except.map ResNet.out_channels (ResNet.make c 50) = Except.ok 512 ∧
      Except.map ResNet.out_channels (ResNet.make c 101) = Except.ok 512 ∧
      Except.map ResNet.out_channels (ResNet.make c 152) = Except.ok 512 ∧
      Except.map ResNet.out_channels (ResNet.make c 200) = Except.ok 512 ∧
      (∀ (ic oc : ℤ) (st : ℤ × ℤ) (f : Bool),
        (BottleneckBlock.make ic oc st f).conv2.out_channels = oc * 4 ∧
        (BottleneckBlock.make ic oc st f).shortcut = ShurtCut.make ic (oc * 4) st f) ∧
      Except.map
        (fun r => (r.stages.getLastD []).all fun b => b.bottleneckProjOut == some 2048)
        (ResNet.make c 200) = Except.ok true :=
  fun _ => ⟨rfl, rfl, rfl, rfl, rfl, rfl, fun _ _ _ _ => ⟨rfl, rfl⟩, rfl⟩

/-- C7: for every supported scale and both model names, construction of the
mobile-inverted backbone succeeds and `out_channels` equals
`make_divisible(scale * cls_ch_squeeze)` (960 for large, 576 for small);
in particular scale 0.5 with large gives 480. -/
theorem mobilenet_out_channels_spec :
    (∀ (c : ℤ) (scale : ℚ) (model_name : String),
      (scale = 7/20 ∨ scale = 1/2 ∨ scale = 3/4 ∨ scale = 1 ∨ scale = 5/4) →
      (model_name = "large" ∨ model_name = "small") →
      Except.map MobileNetV3.out_channels (MobileNetV3.make c scale model_name) =
        Except.ok (make_divisible (scale *
          ((if model_name = "large" then (960 : ℤ) else 576) : ℚ)))) ∧
    (∀ c : ℤ,
      Except.map MobileNetV3.out_channels (MobileNetV3.make c (1/2) "large") =
        Except.ok 480) := by
  constructor
  · intro c scale model_name hs hm
    rcases hm with rfl | rfl <;> rcases hs with rfl | rfl | rfl | rfl | rfl <;>
      with_unfolding_all rfl
  · intro c
    with_unfolding_all rfl

/-- Witness for C7 at scale 0.5, model name large, 3 input channels. -/
theorem mobilenet_out_channels_spec_witness :
    Except.map MobileNetV3.out_channels (MobileNetV3.make 3 (1/2) "large") =
      Except.ok (make_divisible ((1/2 : ℚ) *
        ((if ("large" : String) = "large" then (960 : ℤ) else 576) : ℚ))) :=
  mobilenet_out_channels_spec.1 3 (1/2) "large" (Or.inr (Or.inl rfl)) (Or.inl rfl)

/-- C8: an unsupported scale, an unsupported model name, or an unsupported
depth makes backbone construction fail with an error; the validation runs
before any sub-unit is constructed (in the embedding the error result
carries no constructed model at all). -/
theorem invalid_config_construction_fails :
    (∀ (c : ℤ) (scale : ℚ) (model_name : String),
      ¬(scale = 7/20 ∨ scale = 1/2 ∨ scale = 3/4 ∨ scale = 1 ∨ scale = 5/4) →
      exceptIsError (MobileNetV3.make c scale model_name) = true) ∧
    (∀ (c : ℤ) (scale : ℚ) (model_name : String),
      model_name ≠ "large" → model_name ≠ "small" →
      MobileNetV3.make c scale model_name =
        Except.error ("mode[" ++ model_name ++ "_model] is not implemented!")) ∧
    (∀ (c : ℤ) (layers : ℕ),
      ¬(layers = 18 ∨ layers = 34 ∨ layers = 50 ∨ layers = 101 ∨ layers = 152 ∨
        layers = 200) →
      exceptIsError (ResNet.make c layers) = true) := by
  refine ⟨?_, ?_, ?_⟩
  · intro c scale model_name h
    push_neg at h
    obtain ⟨h1, h2, h3, h4, h5⟩ := h
    have hsc : ¬ scale ∈ supported_scale := by
      simp only [supported_scale, List.mem_cons, List.not_mem_nil, or_false]
      push_neg
      exact ⟨h1, h2, h3, h4, h5⟩
    have hbuild : ∀ cfg q, mobileBuild c scale cfg q =
        Except.error
          "supported scale are [0.35, 0.5, 0.75, 1.0, 1.25] but input scale is not" := by
      intro cfg q
      simp only [mobileBuild]
      rw [if_neg hsc]
    by_cases hm : model_name = "large"
    · simp [MobileNetV3.make, hm, hbuild, exceptIsError]
    · by_cases hm2 : model_name = "small"
      · simp [MobileNetV3.make, hm, hm2, hbuild, exceptIsError]
      · simp [MobileNetV3.make, hm, hm2, exceptIsError]
  · intro c scale model_name hm1 hm2
    simp [MobileNetV3.make, hm1, hm2]
  · intro c layers h
    push_neg at h
    obtain ⟨h1, h2, h3, h4, h5, h6⟩ := h
    have hlk : List.lookup layers supported_layers = none := by
      have e1 : (layers == 18) = false := beq_eq_false_iff_ne.mpr h1
      have e2 : (layers == 34) = false := beq_eq_false_iff_ne.mpr h2
      have e3 : (layers == 50) = false := beq_eq_false_iff_ne.mpr h3
      have e4 : (layers == 101) = false := beq_eq_false_iff_ne.mpr h4
      have e5 : (layers == 152) = false := beq_eq_false_iff_ne.mpr h5
      have e6 : (layers == 200) = false := beq_eq_false_iff_ne.mpr h6
      simp [supported_layers, List.lookup, e1, e2, e3, e4, e5, e6]
    simp [ResNet.make, hlk, exceptIsError]

/-- Witness for C8 at scale 0.6, model name huge, and depth 19. -/
theorem invalid_config_construction_fails_witness :
    exceptIsError (MobileNetV3.make 3 (3/5) "large") = true ∧
    MobileNetV3.make 3 (1/2) "huge" =
      Except.error "mode[huge_model] is not implemented!" ∧
    exceptIsError (ResNet.make 3 19) = true :=
  ⟨invalid_config_construction_fails.1 3 (3/5) "large" (by with_unfolding_all decide),
   invalid_config_construction_fails.2.1 3 (1/2) "huge" (by decide) (by decide),
   invalid_config_construction_fails.2.2 3 19 (by decide)⟩

/-- Witness for C9 at the concrete first-block shape 64 to 64, stride (1, 1). -/
theorem shurtcut_first_block_never_identity_witness :
    ShortcutConv.checkDirect 64 64 (1, 1) (ShurtCut.make 64 64 (1, 1) true).conv =
      true :=
  (shurtcut_first_block_never_identity.1 64 64 (1, 1)).1
